import Mathlib

/-!
Shallow embedding of the pdf-agent-api repository (src/main.py and
eval/evaluate.py) and proofs about its navigation, agent-memory,
judging and evaluation-harness logic.

External collaborators (pdf2image's `convert_from_bytes`, pypdf's
`PdfReader.pages[i].extract_text()`, the chat-completion API, `json.loads`,
the HTTP predictor) are modelled as abstract function parameters or
`Except`-valued inputs; everything the repository itself computes is
translated faithfully from the Python source.
-/

/-- Model of Python's `str.lower()`: lower-case every character. -/
def py_lower (s : String) : String :=
  ⟨s.data.map Char.toLower⟩

/-- Model of Python's `str.strip()`: drop whitespace from both ends. -/
def py_strip (s : String) : String :=
  ⟨((s.data.dropWhile Char.isWhitespace).reverse.dropWhile Char.isWhitespace).reverse⟩

/-- Substring test on character lists: does `needle` occur contiguously
inside the second list? -/
def list_has_sub (needle : List Char) : List Char → Bool
  | [] => needle.isEmpty
  | c :: t => needle.isPrefixOf (c :: t) || list_has_sub needle t

/-- Substring test on strings. -/
def str_has_sub (needle hay : String) : Bool :=
  list_has_sub needle.data hay.data

namespace PdfAgent

/-- A raster image is abstract; we only track an identifier. -/
abbrev Image := Nat

/-- Embedding of the `PDFState` class of src/main.py.

* `pdf_bytes` — the raw byte buffer (`None` representable, since
  `get_page_image` checks `self.pdf_bytes is None`).
* `page_text` — abstraction of `PdfReader(BytesIO(pdf_bytes)).pages[i].extract_text()`
  for an integer index `i` (the extraction is an external collaborator).
* `render` — abstraction of `convert_from_bytes(pdf_bytes, dpi=150, ...)`
  restricted to one page: the raster produced for a page index.
* `total_pages`, `current_page` — the navigation state proper
  (`current_page` is a Python int, so we use `Int`). -/
structure PDFState where
  pdf_bytes : Option (List Nat)
  page_text : Int → String
  render : Int → Image
  total_pages : Nat
  current_page : Int

/-- Embedding of `PDFState.__init__`: `current_page = 0`; the page count comes
from `convert_from_bytes(pdf_bytes, dpi=1)` — modelled as an `Except` carrying
the list of page images on success — with `total_pages = len(all_pages)`, and
a fallback of `1` when the call raises. -/
def mk_pdf_state (pdf_bytes : List Nat) (page_text : Int → String)
    (render : Int → Image) (convert_result : Except Unit (List Image)) : PDFState :=
  { pdf_bytes := some pdf_bytes
    page_text := page_text
    render := render
    total_pages :=
      match convert_result with
      | .ok all_pages => all_pages.length
      | .error _ => 1
    current_page := 0 }

/-- Embedding of `PDFState.get_page_image` (src/main.py lines 41-51):
defaults to the current page, returns `None` for an out-of-range index or a
missing byte buffer, otherwise renders the page. -/
def get_page_image (st : PDFState) (page_index : Option Int) : Option Image :=
  let i := page_index.getD st.current_page
  if i < 0 ∨ (st.total_pages : Int) ≤ i ∨ st.pdf_bytes = none then
    none
  else
    some (st.render i)

/-- The status string shared by the three navigation methods
(src/main.py lines 56-62, 67-73, 80-86): extract the new current page's text
and report the 1-based page number, appending the text when non-empty. -/
def page_status (st : PDFState) : String :=
  let page_text := st.page_text st.current_page
  let shown := toString (st.current_page + 1)
  if page_text = "" then
    "Switched to page " ++ shown ++ "."
  else
    "Switched to page " ++ shown ++ ". Page text: " ++ page_text

/-- Embedding of `PDFState.next_page`: clamp forward, then build the status. -/
def next_page (st : PDFState) : PDFState × String :=
  let st' := { st with current_page := min (st.current_page + 1) ((st.total_pages : Int) - 1) }
  (st', page_status st')

/-- Embedding of `PDFState.previous_page`: clamp backward, then build the status. -/
def previous_page (st : PDFState) : PDFState × String :=
  let st' := { st with current_page := max (st.current_page - 1) 0 }
  (st', page_status st')

/-- Embedding of `PDFState.go_to_page` (1-based argument): convert to a
0-based index, clamp into `[0, total_pages - 1]`, then build the status. -/
def go_to_page (st : PDFState) (page_number : Int) : PDFState × String :=
  let page_index := page_number - 1
  let st' := { st with current_page := min (max page_index 0) ((st.total_pages : Int) - 1) }
  (st', page_status st')

/-- `clamp n lo hi` as used by the spec: constrain `n` into `[lo, hi]`. -/
def clamp (n lo hi : Int) : Int :=
  min (max n lo) hi

/-- One navigation call, as dispatched by the agent tools of src/main.py. -/
inductive NavOp
  | next : NavOp
  | prev : NavOp
  | goto : Int → NavOp

/-- Apply one navigation call to the state. -/
def apply_nav (st : PDFState) : NavOp → PDFState × String
  | .next => next_page st
  | .prev => previous_page st
  | .goto n => go_to_page st n

/-- The list of states reached after each call of a navigation sequence. -/
def nav_states (st : PDFState) : List NavOp → List PDFState
  | [] => []
  | op :: ops =>
    let st' := (apply_nav st op).1
    st' :: nav_states st' ops

/-- Embedding of smolagents' `ActionStep`, restricted to the fields the
repository reads or writes: the step number, the retained image payload
(`observations_images`, a Python list that may itself be `None`, whose
elements are `get_page_image` results and hence optional), and the textual
thought/observation trail. -/
structure ActionStep where
  step_number : Int
  observations_images : Option (List (Option Image))
  model_output : String
  observations : String
  deriving DecidableEq

/-- An entry of `agent.memory.steps`: either an `ActionStep` or some other
step kind (task/planning), which the callback's `isinstance` check skips. -/
inductive MemoryStep
  | action : ActionStep → MemoryStep
  | task : String → MemoryStep
  deriving DecidableEq

/-- The pruning pass of `current_page_callback` (src/main.py lines 119-126)
applied to one memory entry: an `ActionStep` whose `step_number` is at most
`current_step - 2` has its `observations_images` set to `None`; every other
entry is left as it is. -/
def prune_step (current_step : Int) : MemoryStep → MemoryStep
  | .action a =>
    if a.step_number ≤ current_step - 2 then
      .action { a with observations_images := none }
    else
      .action a
  | .task t => .task t

/-- Embedding of `current_page_callback` (src/main.py lines 117-130).
It receives the memory list and the just-finished `memory_step`; it prunes
the images of every sufficiently old `ActionStep` in memory, then sets the
current step's `observations_images` to the singleton list holding the
current page's raster.  The first component is the post-callback memory
list, the second the post-callback current step (in the running agent the
current step is the last memory entry; its post-state is the second
component, since its own step number never satisfies the pruning test). -/
def current_page_callback (st : PDFState) (steps : List MemoryStep)
    (memory_step : ActionStep) : List MemoryStep × ActionStep :=
  let current_step := memory_step.step_number
  (steps.map (prune_step current_step),
   { memory_step with observations_images := some [get_page_image st none] })

end PdfAgent

namespace PdfEval

/-- Embedding of `LLMJudge.grade_answer` (eval/evaluate.py lines 101-131).
The chat-completion call is an external collaborator, modelled by its
outcome: `Except.error` when the transport raises,
`Except.ok none` when `response.choices[0].message.content` is `None`
(the subsequent `.strip()` then raises inside the `try`, landing in the same
handler), and `Except.ok (some content)` for a textual response.  The
response text is stripped, lower-cased, and validated against the two-token
vocabulary; everything else degrades to `"incorrect"`. -/
def grade_answer (chat_result : Except Unit (Option String)) : String :=
  match chat_result with
  | .error _ => "incorrect"
  | .ok none => "incorrect"
  | .ok (some content) =>
    let grade := py_lower (py_strip content)
    if grade = "correct" ∨ grade = "incorrect" then grade
    else "incorrect"

/-- One entry of `EvaluationResults.results` (eval/evaluate.py lines 39-45). -/
structure ResultEntry where
  question : String
  expected_answer : String
  predicted_answer : String
  grade : String
  is_correct : Bool
  deriving DecidableEq

/-- Embedding of the `EvaluationResults` bookkeeping state
(eval/evaluate.py lines 31-34). -/
structure EvaluationResults where
  results : List ResultEntry
  total_questions : Nat
  correct_answers : Nat
  deriving DecidableEq

/-- The empty tracker produced by `EvaluationResults.__init__`. -/
def empty_results : EvaluationResults :=
  { results := [], total_questions := 0, correct_answers := 0 }

/-- Embedding of `EvaluationResults.add_result` (eval/evaluate.py lines
36-49): normalise the grade with `.lower().strip()`, append the entry,
bump the totals. -/
def add_result (r : EvaluationResults) (question expected predicted grade : String) :
    EvaluationResults :=
  let is_correct := py_strip (py_lower grade) == "correct"
  { results := r.results ++
      [{ question := question
         expected_answer := expected
         predicted_answer := predicted
         grade := grade
         is_correct := is_correct }]
    total_questions := r.total_questions + 1
    correct_answers := r.correct_answers + (if is_correct then 1 else 0) }

/-- Embedding of `EvaluationResults.get_accuracy` (eval/evaluate.py lines
51-55); Python float arithmetic on these small integers is exact, so we
compute in `ℚ`. -/
def get_accuracy (r : EvaluationResults) : ℚ :=
  if r.total_questions = 0 then 0
  else ((r.correct_answers : ℚ) / (r.total_questions : ℚ)) * 100

/-- One record of the evaluation input file, after
`item.get("question", "")` / `item.get("answer", "")`. -/
structure EvalItem where
  question : String
  answer : String
  deriving DecidableEq

/-- The line-reading loop of `load_eval_set` (eval/evaluate.py lines
138-142), with `json.loads` abstracted as `parse`: strip each line, skip
blank lines, parse the rest, and propagate a parse failure (the raised
`json.JSONDecodeError`) out of the loop. -/
def read_lines (parse : String → Option EvalItem) : List String → Except Unit (List EvalItem)
  | [] => .ok []
  | l :: ls =>
    let line := py_strip l
    if line = "" then read_lines parse ls
    else
      match parse line with
      | none => .error ()
      | some item =>
        match read_lines parse ls with
        | .ok rest => .ok (item :: rest)
        | .error e => .error e

/-- Embedding of `load_eval_set` (eval/evaluate.py lines 134-150): run the
reading loop over the file's lines; the `except json.JSONDecodeError`
handler sits outside the loop and returns the empty list. -/
def load_eval_set (parse : String → Option EvalItem) (lines : List String) : List EvalItem :=
  match read_lines parse lines with
  | .ok items => items
  | .error _ => []

/-- The predictor's outcome for one item (eval/evaluate.py lines 208-239):
on success the answer field, which may be a string or a list of strings;
on any exception the error's message. -/
abbrev PredictorResult := Except String (String ⊕ List String)

/-- The predicted-answer string of one loop iteration: join a list answer
with spaces, and turn any predictor exception into the literal
`"Error: ..."` string. -/
def predicted_of : PredictorResult → String
  | .ok (.inl s) => s
  | .ok (.inr l) => String.intercalate " " l
  | .error e => "Error: " ++ e

/-- The graded verdict of one loop iteration (eval/evaluate.py lines
242-247): the judge call sits in its own `try`, defaulting to
`"incorrect"` when it raises. -/
def eval_grade (judge : String → String → String → Except Unit String)
    (question expected predicted : String) : String :=
  match judge question expected predicted with
  | .ok g => g
  | .error _ => "incorrect"

/-- Embedding of the per-item loop of `run_evaluation` (eval/evaluate.py
lines 201-251): for each item in input order, compute the predicted answer,
grade it, and record the result. -/
def run_evaluation (predict : EvalItem → PredictorResult)
    (judge : String → String → String → Except Unit String)
    (items : List EvalItem) : EvaluationResults :=
  items.foldl
    (fun acc item =>
      let predicted := predicted_of (predict item)
      add_result acc item.question item.answer predicted
        (eval_grade judge item.question item.answer predicted))
    empty_results

/-- The single `ResultEntry` produced for one item by the loop body. -/
def eval_entry (predict : EvalItem → PredictorResult)
    (judge : String → String → String → Except Unit String)
    (item : EvalItem) : ResultEntry :=
  let predicted := predicted_of (predict item)
  let grade := eval_grade judge item.question item.answer predicted
  { question := item.question
    expected_answer := item.answer
    predicted_answer := predicted
    grade := grade
    is_correct := py_strip (py_lower grade) == "correct" }

end PdfEval

/-- A small concrete `PDFState` fixture used to instantiate the theorems:
three pages, page 1 (0-based) carrying text, the others blank. -/
def sample_state : PdfAgent.PDFState :=
  { pdf_bytes := some [1, 2, 3]
    page_text := fun i => if i = 1 then "hello world" else ""
    render := fun i => i.toNat + 10
    total_pages := 3
    current_page := 0 }

/-- A concrete stand-in for `json.loads` on one line: only the line
`"good"` is well-formed. -/
def sample_parse : String → Option PdfEval.EvalItem :=
  fun s => if s = "good" then some { question := "q", answer := "a" } else none

/- ------------------------------------------------------------------ -/
/- Helper lemmas                                                       -/
/- ------------------------------------------------------------------ -/

theorem isPrefixOf_append_self (needle post : List Char) :
    List.isPrefixOf needle (needle ++ post) = true := by
  induction needle with
  | nil => simp [List.isPrefixOf]
  | cons a as ih => simp [List.isPrefixOf, ih]

theorem list_has_sub_of_append (pre needle post : List Char) :
    list_has_sub needle (pre ++ needle ++ post) = true := by
  induction pre with
  | nil =>
    cases h : needle ++ post with
    | nil =>
      simp only [List.nil_append, h, list_has_sub]
      simp [List.append_eq_nil] at h
      simp [h.1, List.isEmpty]
    | cons c t =>
      simp only [List.nil_append, h, list_has_sub]
      rw [← h, isPrefixOf_append_self]
      simp
  | cons a as ih =>
    simp only [List.cons_append, list_has_sub, List.append_eq]
    rw [ih]
    simp

theorem str_has_sub_intro (needle hay pre post : String)
    (h : hay.data = pre.data ++ needle.data ++ post.data) :
    str_has_sub needle hay = true := by
  unfold str_has_sub
  rw [h]
  exact list_has_sub_of_append pre.data needle.data post.data

/- ------------------------------------------------------------------ -/
/- Claim theorems                                                      -/
/- ------------------------------------------------------------------ -/

/-- Claim C2: `grade_answer` returns exactly `"correct"` or `"incorrect"`
for every chat-call outcome; a raised exception (or a `None` content, which
raises inside the same `try`) and any stripped, lower-cased response outside
the two-token vocabulary both yield `"incorrect"`, without propagating the
failure. -/
theorem grade_answer_two_tokens (r : Except Unit (Option String)) :
    (PdfEval.grade_answer r = "correct" ∨ PdfEval.grade_answer r = "incorrect")
    ∧ (∀ e, r = .error e → PdfEval.grade_answer r = "incorrect")
    ∧ (r = .ok none → PdfEval.grade_answer r = "incorrect")
    ∧ (∀ c, r = .ok (some c) →
        ¬(py_lower (py_strip c) = "correct" ∨ py_lower (py_strip c) = "incorrect") →
        PdfEval.grade_answer r = "incorrect") := by
  refine ⟨?_, ?_, ?_, ?_⟩
  · match r with
    | .error _ => right; rfl
    | .ok none => right; rfl
    | .ok (some c) =>
      simp only [PdfEval.grade_answer]
      split
      · next h => exact h
      · right; rfl
  · intro e he
    subst he
    rfl
  · intro he
    subst he
    rfl
  · intro c hc hvocab
    subst hc
    simp only [PdfEval.grade_answer]
    rw [if_neg hvocab]

/-- Witness for C2 at concrete inputs: an out-of-vocabulary response and a
transport failure both grade `"incorrect"`. -/
theorem grade_answer_two_tokens_witness :
    PdfEval.grade_answer (.ok (some " Maybe ")) = "incorrect"
    ∧ PdfEval.grade_answer (.error ()) = "incorrect"
    ∧ PdfEval.grade_answer (.ok none) = "incorrect" :=
  ⟨(grade_answer_two_tokens (.ok (some " Maybe "))).2.2.2 " Maybe " rfl (by decide),
   (grade_answer_two_tokens (.error ())).2.1 () rfl,
   (grade_answer_two_tokens (.ok none)).2.2.1 rfl⟩

/-- Claim C7: `get_accuracy` is `100 · correct / total`, `0` when
`total = 0`; in particular a tracker built by `add_result` from 3 correct
grades out of 4 reports `75`, and the empty tracker reports `0`. -/
theorem get_accuracy_formula :
    (∀ r : PdfEval.EvaluationResults, r.total_questions = 0 → PdfEval.get_accuracy r = 0)
    ∧ (∀ r : PdfEval.EvaluationResults, r.total_questions ≠ 0 →
        PdfEval.get_accuracy r = 100 * (r.correct_answers : ℚ) / (r.total_questions : ℚ))
    ∧ PdfEval.get_accuracy
        (PdfEval.add_result
          (PdfEval.add_result
            (PdfEval.add_result
              (PdfEval.add_result PdfEval.empty_results "q1" "a" "a" "correct")
              "q2" "b" "b" "correct")
            "q3" "c" "c" "Correct")
          "q4" "d" "x" "incorrect") = 75
    ∧ PdfEval.get_accuracy PdfEval.empty_results = 0 := by
  refine ⟨?_, ?_, ?_, ?_⟩
  · intro r h
    unfold PdfEval.get_accuracy
    rw [if_pos h]
  · intro r h
    unfold PdfEval.get_accuracy
    rw [if_neg h]
    ring
  · have h4 : (PdfEval.add_result
        (PdfEval.add_result
          (PdfEval.add_result
            (PdfEval.add_result PdfEval.empty_results "q1" "a" "a" "correct")
            "q2" "b" "b" "correct")
          "q3" "c" "c" "Correct")
        "q4" "d" "x" "incorrect").total_questions = 4 := by decide
    have h3 : (PdfEval.add_result
        (PdfEval.add_result
          (PdfEval.add_result
            (PdfEval.add_result PdfEval.empty_results "q1" "a" "a" "correct")
            "q2" "b" "b" "correct")
          "q3" "c" "c" "Correct")
        "q4" "d" "x" "incorrect").correct_answers = 3 := by decide
    unfold PdfEval.get_accuracy
    rw [h4, h3]
    norm_num
  · rfl

/-- Claim C9: `PDFState` construction never fails: the page count falls back
to `1` when the counting call raises, `current_page` starts at `0`, and —
given that a successful `convert_from_bytes` returns one image per page of a
readable (hence non-empty) document — `total_pages ≥ 1` always holds. -/
theorem mk_pdf_state_fallback (pdf_bytes : List Nat) (page_text : Int → String)
    (render : Int → PdfAgent.Image) (convert_result : Except Unit (List PdfAgent.Image)) :
    (PdfAgent.mk_pdf_state pdf_bytes page_text render convert_result).current_page = 0
    ∧ (∀ e, convert_result = .error e →
        (PdfAgent.mk_pdf_state pdf_bytes page_text render convert_result).total_pages = 1)
    ∧ ((∀ pages, convert_result = .ok pages → pages ≠ []) →
        1 ≤ (PdfAgent.mk_pdf_state pdf_bytes page_text render convert_result).total_pages) := by
  refine ⟨rfl, ?_, ?_⟩
  · intro e he
    subst he
    rfl
  · intro h
    cases convert_result with
    | error e => simp [PdfAgent.mk_pdf_state]
    | ok pages =>
      simp only [PdfAgent.mk_pdf_state]
      exact List.length_pos.mpr (h pages rfl)

/-- Witness for C9: a failing page count gives `total_pages = 1`; a
successful one-page count gives `total_pages ≥ 1`; both start on page 0. -/
theorem mk_pdf_state_fallback_witness :
    (PdfAgent.mk_pdf_state [9] (fun _ => "") (fun _ => 0) (.error ())).total_pages = 1
    ∧ (PdfAgent.mk_pdf_state [9] (fun _ => "") (fun _ => 0) (.error ())).current_page = 0
    ∧ 1 ≤ (PdfAgent.mk_pdf_state [9] (fun _ => "") (fun _ => 0) (.ok [7])).total_pages :=
  ⟨(mk_pdf_state_fallback [9] (fun _ => "") (fun _ => 0) (.error ())).2.1 () rfl,
   (mk_pdf_state_fallback [9] (fun _ => "") (fun _ => 0) (.error ())).1,
   (mk_pdf_state_fallback [9] (fun _ => "") (fun _ => 0) (.ok [7])).2.2
     (by intro pages h; cases h; simp)⟩

/-- Claim C10: `get_page_image` returns `none` for every negative index,
every index at or past `total_pages`, and whenever the byte buffer is
missing; conversely a raster is produced only for an in-range index of a
present buffer. -/
theorem get_page_image_guard (st : PdfAgent.PDFState) (i : Int) :
    ((i < 0 ∨ (st.total_pages : Int) ≤ i ∨ st.pdf_bytes = none) →
      PdfAgent.get_page_image st (some i) = none)
    ∧ (PdfAgent.get_page_image st (some i) ≠ none →
      0 ≤ i ∧ i < (st.total_pages : Int) ∧ st.pdf_bytes ≠ none) := by
  constructor
  · intro h
    simp only [PdfAgent.get_page_image, Option.getD_some]
    rw [if_pos h]
  · intro h
    simp only [PdfAgent.get_page_image, Option.getD_some] at h
    by_cases hc : i < 0 ∨ (st.total_pages : Int) ≤ i ∨ st.pdf_bytes = none
    · rw [if_pos hc] at h
      exact absurd rfl h
    · push_neg at hc
      exact ⟨hc.1, hc.2.1, hc.2.2⟩

/-- Witness for C10: on the three-page fixture, index `-1` and index `3`
yield `none`, while index `0` yields a raster, hence is in range. -/
theorem get_page_image_guard_witness :
    PdfAgent.get_page_image sample_state (some (-1)) = none
    ∧ PdfAgent.get_page_image sample_state (some 3) = none
    ∧ (0 ≤ (0 : Int) ∧ (0 : Int) < (sample_state.total_pages : Int)
        ∧ sample_state.pdf_bytes ≠ none) :=
  ⟨(get_page_image_guard sample_state (-1)).1 (by decide),
   (get_page_image_guard sample_state 3).1 (by norm_num [sample_state]),
   (get_page_image_guard sample_state 0).2
     (by simp [PdfAgent.get_page_image, sample_state])⟩

/-- One navigation call preserves the page bounds and the page count. -/
theorem apply_nav_preserves (st : PdfAgent.PDFState) (op : PdfAgent.NavOp)
    (h1 : 1 ≤ st.total_pages) (h2 : 0 ≤ st.current_page)
    (h3 : st.current_page ≤ (st.total_pages : Int) - 1) :
    0 ≤ (PdfAgent.apply_nav st op).1.current_page
    ∧ (PdfAgent.apply_nav st op).1.current_page ≤ ((PdfAgent.apply_nav st op).1.total_pages : Int) - 1
    ∧ (PdfAgent.apply_nav st op).1.total_pages = st.total_pages := by
  cases op with
  | next =>
    refine ⟨?_, ?_, rfl⟩ <;>
      simp only [PdfAgent.apply_nav, PdfAgent.next_page] <;> omega
  | prev =>
    refine ⟨?_, ?_, rfl⟩ <;>
      simp only [PdfAgent.apply_nav, PdfAgent.previous_page] <;> omega
  | goto n =>
    refine ⟨?_, ?_, rfl⟩ <;>
      simp only [PdfAgent.apply_nav, PdfAgent.go_to_page] <;> omega

/-- Claim C3: from any in-bounds state of a document with at least one page
(as every freshly constructed `PDFState` is, since it starts at page 0),
every finite sequence of navigation calls keeps `current_page` within
`[0, total_pages - 1]` after every call; and an out-of-range `go_to_page`
request is clamped to the nearest bound instead of being rejected. -/
theorem navigation_in_bounds (st : PdfAgent.PDFState) (ops : List PdfAgent.NavOp)
    (h1 : 1 ≤ st.total_pages) (h2 : 0 ≤ st.current_page)
    (h3 : st.current_page ≤ (st.total_pages : Int) - 1) :
    (∀ st' ∈ PdfAgent.nav_states st ops,
      0 ≤ st'.current_page ∧ st'.current_page ≤ (st'.total_pages : Int) - 1)
    ∧ (∀ n : Int, (st.total_pages : Int) ≤ n →
        (PdfAgent.go_to_page st n).1.current_page = (st.total_pages : Int) - 1)
    ∧ (∀ n : Int, n ≤ 1 → (PdfAgent.go_to_page st n).1.current_page = 0) := by
  refine ⟨?_, ?_, ?_⟩
  · induction ops generalizing st with
    | nil => intro st' hst'; simp [PdfAgent.nav_states] at hst'
    | cons op rest ih =>
      intro st' hst'
      obtain ⟨hb1, hb2, hb3⟩ := apply_nav_preserves st op h1 h2 h3
      simp only [PdfAgent.nav_states, List.mem_cons] at hst'
      rcases hst' with hst' | hst'
      · subst hst'
        exact ⟨hb1, hb2⟩
      · exact ih (PdfAgent.apply_nav st op).1 (hb3 ▸ h1) hb1 hb2 st' hst'
  · intro n hn
    simp only [PdfAgent.go_to_page]
    omega
  · intro n hn
    simp only [PdfAgent.go_to_page]
    omega

/-- Witness for C3: on the three-page fixture, a four-call sequence with a
wildly out-of-range `go_to_page` stays within bounds, and the clamps land
on the nearest bound. -/
theorem navigation_in_bounds_witness :
    (∀ st' ∈ PdfAgent.nav_states sample_state
        [PdfAgent.NavOp.next, PdfAgent.NavOp.goto 99, PdfAgent.NavOp.prev,
         PdfAgent.NavOp.goto (-5)],
      0 ≤ st'.current_page ∧ st'.current_page ≤ (st'.total_pages : Int) - 1)
    ∧ (PdfAgent.go_to_page sample_state 99).1.current_page = 2
    ∧ (PdfAgent.go_to_page sample_state (-5)).1.current_page = 0 := by
  have h := navigation_in_bounds sample_state
    [PdfAgent.NavOp.next, PdfAgent.NavOp.goto 99, PdfAgent.NavOp.prev,
     PdfAgent.NavOp.goto (-5)] (by decide) (by decide) (by decide)
  refine ⟨h.1, ?_, h.2.2 (-5) (by decide)⟩
  have h99 := h.2.1 99 (by decide)
  simpa [sample_state] using h99

/-- Claim C6: `go_to_page` never rejects its argument, and for every integer
`n` its resulting state and status text coincide with those of
`go_to_page (clamp n 1 total_pages)`; moreover the landing page is always
in bounds. -/
theorem go_to_page_clamp_equiv (st : PdfAgent.PDFState) (n : Int)
    (h : 1 ≤ st.total_pages) :
    PdfAgent.go_to_page st n
      = PdfAgent.go_to_page st (PdfAgent.clamp n 1 (st.total_pages : Int))
    ∧ 0 ≤ (PdfAgent.go_to_page st n).1.current_page
    ∧ (PdfAgent.go_to_page st n).1.current_page ≤ (st.total_pages : Int) - 1 := by
  refine ⟨?_, ?_, ?_⟩
  · have hc : min (max (n - 1) 0) ((st.total_pages : Int) - 1)
        = min (max (PdfAgent.clamp n 1 (st.total_pages : Int) - 1) 0)
            ((st.total_pages : Int) - 1) := by
      unfold PdfAgent.clamp
      omega
    simp only [PdfAgent.go_to_page]
    rw [hc]
  · simp only [PdfAgent.go_to_page]
    omega
  · simp only [PdfAgent.go_to_page]
    omega

/-- Witness for C6: on the three-page fixture, `go_to_page 100` equals
`go_to_page (clamp 100 1 3)` and lands in bounds. -/
theorem go_to_page_clamp_equiv_witness :
    PdfAgent.go_to_page sample_state 100
      = PdfAgent.go_to_page sample_state (PdfAgent.clamp 100 1 (sample_state.total_pages : Int))
    ∧ 0 ≤ (PdfAgent.go_to_page sample_state 100).1.current_page
    ∧ (PdfAgent.go_to_page sample_state 100).1.current_page
        ≤ (sample_state.total_pages : Int) - 1 :=
  go_to_page_clamp_equiv sample_state 100 (by decide)

/-- The status string always contains the 1-based page number; it contains
the page text when that text is non-empty, and is exactly the bare
page-number phrase when the text is empty. -/
theorem page_status_spec (st : PdfAgent.PDFState) :
    str_has_sub (toString (st.current_page + 1)) (PdfAgent.page_status st) = true
    ∧ (st.page_text st.current_page ≠ "" →
        str_has_sub (st.page_text st.current_page) (PdfAgent.page_status st) = true)
    ∧ (st.page_text st.current_page = "" →
        PdfAgent.page_status st
          = "Switched to page " ++ toString (st.current_page + 1) ++ ".") := by
  by_cases h : st.page_text st.current_page = ""
  · refine ⟨?_, fun hne => absurd h hne, fun _ => ?_⟩
    · simp only [PdfAgent.page_status, h, if_pos]
      exact str_has_sub_intro _ _ "Switched to page " "."
        (by simp [String.data_append, List.append_assoc])
    · simp only [PdfAgent.page_status, h, if_pos]
  · refine ⟨?_, fun _ => ?_, fun he => absurd he h⟩
    · simp only [PdfAgent.page_status, h, if_neg, ite_false]
      exact str_has_sub_intro _ _ "Switched to page "
        (". Page text: " ++ st.page_text st.current_page)
        (by simp [String.data_append, List.append_assoc])
    · simp only [PdfAgent.page_status, h, if_neg, ite_false]
      exact str_has_sub_intro _ _
        ("Switched to page " ++ toString (st.current_page + 1) ++ ". Page text: ") ""
        (by simp [String.data_append, List.append_assoc])

/-- Claim C8: every navigation operation first clamps `current_page`
(`next_page` to `min(current_page+1, total_pages-1)`, `previous_page` to
`max(current_page-1, 0)`, `go_to_page n` into the page range) and returns a
status string containing the new 1-based page number, plus the new page's
extracted text when non-empty; with empty text the status is the
page-number phrase alone. -/
theorem nav_status_contents (st : PdfAgent.PDFState) (n : Int) :
    ((PdfAgent.next_page st).1.current_page
        = min (st.current_page + 1) ((st.total_pages : Int) - 1))
    ∧ str_has_sub (toString ((PdfAgent.next_page st).1.current_page + 1))
        (PdfAgent.next_page st).2 = true
    ∧ ((PdfAgent.next_page st).1.page_text (PdfAgent.next_page st).1.current_page ≠ "" →
        str_has_sub ((PdfAgent.next_page st).1.page_text (PdfAgent.next_page st).1.current_page)
          (PdfAgent.next_page st).2 = true)
    ∧ ((PdfAgent.next_page st).1.page_text (PdfAgent.next_page st).1.current_page = "" →
        (PdfAgent.next_page st).2
          = "Switched to page " ++ toString ((PdfAgent.next_page st).1.current_page + 1) ++ ".")
    ∧ ((PdfAgent.previous_page st).1.current_page = max (st.current_page - 1) 0)
    ∧ str_has_sub (toString ((PdfAgent.previous_page st).1.current_page + 1))
        (PdfAgent.previous_page st).2 = true
    ∧ ((PdfAgent.previous_page st).1.page_text (PdfAgent.previous_page st).1.current_page ≠ "" →
        str_has_sub
          ((PdfAgent.previous_page st).1.page_text (PdfAgent.previous_page st).1.current_page)
          (PdfAgent.previous_page st).2 = true)
    ∧ ((PdfAgent.previous_page st).1.page_text (PdfAgent.previous_page st).1.current_page = "" →
        (PdfAgent.previous_page st).2
          = "Switched to page "
              ++ toString ((PdfAgent.previous_page st).1.current_page + 1) ++ ".")
    ∧ ((PdfAgent.go_to_page st n).1.current_page
        = min (max (n - 1) 0) ((st.total_pages : Int) - 1))
    ∧ str_has_sub (toString ((PdfAgent.go_to_page st n).1.current_page + 1))
        (PdfAgent.go_to_page st n).2 = true
    ∧ ((PdfAgent.go_to_page st n).1.page_text (PdfAgent.go_to_page st n).1.current_page ≠ "" →
        str_has_sub
          ((PdfAgent.go_to_page st n).1.page_text (PdfAgent.go_to_page st n).1.current_page)
          (PdfAgent.go_to_page st n).2 = true)
    ∧ ((PdfAgent.go_to_page st n).1.page_text (PdfAgent.go_to_page st n).1.current_page = "" →
        (PdfAgent.go_to_page st n).2
          = "Switched to page "
              ++ toString ((PdfAgent.go_to_page st n).1.current_page + 1) ++ ".") := by
  obtain ⟨ha1, ha2, ha3⟩ := page_status_spec (PdfAgent.next_page st).1
  obtain ⟨hb1, hb2, hb3⟩ := page_status_spec (PdfAgent.previous_page st).1
  obtain ⟨hc1, hc2, hc3⟩ := page_status_spec (PdfAgent.go_to_page st n).1
  exact ⟨rfl, ha1, ha2, ha3, rfl, hb1, hb2, hb3, rfl, hc1, hc2, hc3⟩

/-- Witness for C8 on the three-page fixture: `next_page` lands on page 1
(0-based), whose non-empty text `"hello world"` appears in the status
string together with the page number `2`; `go_to_page 3` lands on a page
with empty text and returns the bare page-number phrase. -/
theorem nav_status_contents_witness :
    (PdfAgent.next_page sample_state).1.current_page = 1
    ∧ str_has_sub "2" (PdfAgent.next_page sample_state).2 = true
    ∧ str_has_sub "hello world" (PdfAgent.next_page sample_state).2 = true
    ∧ (PdfAgent.go_to_page sample_state 3).2 = "Switched to page 3." := by
  obtain ⟨h1, h2, h3, -⟩ := nav_status_contents sample_state 3
  obtain ⟨-, -, -, -, -, -, -, -, -, -, -, hg⟩ := nav_status_contents sample_state 3
  refine ⟨by simpa [sample_state] using h1, ?_, ?_, ?_⟩
  · have : (PdfAgent.next_page sample_state).1.current_page = 1 := by
      simpa [sample_state] using h1
    simpa [this] using h2
  · have hne : (PdfAgent.next_page sample_state).1.page_text
        (PdfAgent.next_page sample_state).1.current_page = "hello world" := by
      simp [PdfAgent.next_page, sample_state]
    have := h3 (by rw [hne]; decide)
    simpa [hne] using this
  · have hemp : (PdfAgent.go_to_page sample_state 3).1.page_text
        (PdfAgent.go_to_page sample_state 3).1.current_page = "" := by
      simp [PdfAgent.go_to_page, sample_state]
    have := hg hemp
    simpa [PdfAgent.go_to_page, sample_state] using this

/-- Counterexample to claim C1 as stated.  The claim asserts that after the
callback on step `s`, every `ActionStep` with `step_number > s - 2` keeps
its retained images untouched.  But the callback itself overwrites the
current step's images: run it on a step numbered `1` (so `1 > 1 - 2`) whose
images are `none`; afterwards that step's images are the singleton list
holding the current page's raster, hence changed. -/
theorem callback_pruning_counterexample :
    (1 : Int) > 1 - 2
    ∧ (PdfAgent.current_page_callback sample_state
        [PdfAgent.MemoryStep.action
          { step_number := 1, observations_images := none
            model_output := "t", observations := "o" }]
        { step_number := 1, observations_images := none
          model_output := "t", observations := "o" }).2.observations_images
      ≠ ({ step_number := 1, observations_images := none
           model_output := "t", observations := "o" : PdfAgent.ActionStep }).observations_images := by
  refine ⟨by decide, ?_⟩
  simp [PdfAgent.current_page_callback, PdfAgent.get_page_image, sample_state]

/-- Claim C1, amended: after the callback on step `s`, every `ActionStep`
in the agent's memory with `step_number ≤ s - 2` has its retained images
cleared (its step number, thought and observation text intact — the record
update touches only `observations_images`); every memory entry with a
larger step number, and every non-`ActionStep` entry, is left exactly as it
was; and the current step `s` itself — rather than being untouched — gets
its retained images set to the singleton list holding the current page's
raster, its text fields intact. -/
theorem callback_pruning_amended (st : PdfAgent.PDFState)
    (steps : List PdfAgent.MemoryStep) (ms : PdfAgent.ActionStep) :
    (PdfAgent.current_page_callback st steps ms).1.length = steps.length
    ∧ (∀ i a, steps.get? i = some (PdfAgent.MemoryStep.action a) →
        (a.step_number ≤ ms.step_number - 2 →
          (PdfAgent.current_page_callback st steps ms).1.get? i
            = some (PdfAgent.MemoryStep.action
                { a with observations_images := none }))
        ∧ (ms.step_number - 2 < a.step_number →
          (PdfAgent.current_page_callback st steps ms).1.get? i
            = some (PdfAgent.MemoryStep.action a)))
    ∧ (∀ i t, steps.get? i = some (PdfAgent.MemoryStep.task t) →
        (PdfAgent.current_page_callback st steps ms).1.get? i
          = some (PdfAgent.MemoryStep.task t))
    ∧ (PdfAgent.current_page_callback st steps ms).2.observations_images
        = some [PdfAgent.get_page_image st none]
    ∧ (PdfAgent.current_page_callback st steps ms).2.step_number = ms.step_number
    ∧ (PdfAgent.current_page_callback st steps ms).2.model_output = ms.model_output
    ∧ (PdfAgent.current_page_callback st steps ms).2.observations = ms.observations := by
  refine ⟨?_, ?_, ?_, rfl, rfl, rfl, rfl⟩
  · simp [PdfAgent.current_page_callback]
  · intro i a ha
    have hmap : (PdfAgent.current_page_callback st steps ms).1.get? i
        = (steps.get? i).map (PdfAgent.prune_step ms.step_number) := by
      simp [PdfAgent.current_page_callback, List.get?_map]
    constructor
    · intro hle
      rw [hmap, ha]
      simp [PdfAgent.prune_step, hle]
    · intro hgt
      rw [hmap, ha]
      simp [PdfAgent.prune_step]
      omega
  · intro i t ht
    have hmap : (PdfAgent.current_page_callback st steps ms).1.get? i
        = (steps.get? i).map (PdfAgent.prune_step ms.step_number) := by
      simp [PdfAgent.current_page_callback, List.get?_map]
    rw [hmap, ht]
    simp [PdfAgent.prune_step]

/-- Witness for the amended C1: with the callback run on step 3 over a
memory holding action steps 1 and 2 and a task entry, step 1's images are
cleared, step 2 and the task entry are untouched, and the current step's
images become the current page's raster. -/
theorem callback_pruning_amended_witness :
    (PdfAgent.current_page_callback sample_state
        [PdfAgent.MemoryStep.action
          { step_number := 1, observations_images := some [some 11]
            model_output := "t1", observations := "o1" },
         PdfAgent.MemoryStep.action
          { step_number := 2, observations_images := some [some 12]
            model_output := "t2", observations := "o2" },
         PdfAgent.MemoryStep.task "T"]
        { step_number := 3, observations_images := none
          model_output := "t3", observations := "o3" }).1.get? 0
      = some (PdfAgent.MemoryStep.action
          { step_number := 1, observations_images := none
            model_output := "t1", observations := "o1" })
    ∧ (PdfAgent.current_page_callback sample_state
        [PdfAgent.MemoryStep.action
          { step_number := 1, observations_images := some [some 11]
            model_output := "t1", observations := "o1" },
         PdfAgent.MemoryStep.action
          { step_number := 2, observations_images := some [some 12]
            model_output := "t2", observations := "o2" },
         PdfAgent.MemoryStep.task "T"]
        { step_number := 3, observations_images := none
          model_output := "t3", observations := "o3" }).1.get? 1
      = some (PdfAgent.MemoryStep.action
          { step_number := 2, observations_images := some [some 12]
            model_output := "t2", observations := "o2" })
    ∧ (PdfAgent.current_page_callback sample_state
        [PdfAgent.MemoryStep.action
          { step_number := 1, observations_images := some [some 11]
            model_output := "t1", observations := "o1" },
         PdfAgent.MemoryStep.action
          { step_number := 2, observations_images := some [some 12]
            model_output := "t2", observations := "o2" },
         PdfAgent.MemoryStep.task "T"]
        { step_number := 3, observations_images := none
          model_output := "t3", observations := "o3" }).1.get? 2
      = some (PdfAgent.MemoryStep.task "T")
    ∧ (PdfAgent.current_page_callback sample_state
        [PdfAgent.MemoryStep.action
          { step_number := 1, observations_images := some [some 11]
            model_output := "t1", observations := "o1" },
         PdfAgent.MemoryStep.action
          { step_number := 2, observations_images := some [some 12]
            model_output := "t2", observations := "o2" },
         PdfAgent.MemoryStep.task "T"]
        { step_number := 3, observations_images := none
          model_output := "t3", observations := "o3" }).2.observations_images
      = some [PdfAgent.get_page_image sample_state none] := by
  have h := callback_pruning_amended sample_state
    [PdfAgent.MemoryStep.action
      { step_number := 1, observations_images := some [some 11]
        model_output := "t1", observations := "o1" },
     PdfAgent.MemoryStep.action
      { step_number := 2, observations_images := some [some 12]
        model_output := "t2", observations := "o2" },
     PdfAgent.MemoryStep.task "T"]
    { step_number := 3, observations_images := none
      model_output := "t3", observations := "o3" }
  exact ⟨(h.2.1 0 _ rfl).1 (by decide), (h.2.1 1 _ rfl).2 (by decide),
    h.2.2.1 2 "T" rfl, h.2.2.2.1⟩

/-- If every non-blank line parses, the reading loop succeeds and returns
one item per non-blank line, in order. -/
theorem read_lines_ok (parse : String → Option PdfEval.EvalItem) (lines : List String)
    (h : ∀ l ∈ lines, py_strip l ≠ "" → (parse (py_strip l)).isSome) :
    PdfEval.read_lines parse lines
      = .ok (((lines.map py_strip).filter (fun l => !(l == ""))).filterMap parse) := by
  induction lines with
  | nil => rfl
  | cons l ls ih =>
    have ihls := ih (fun x hx => h x (List.mem_cons_of_mem l hx))
    by_cases hline : py_strip l = ""
    · simp only [PdfEval.read_lines, hline, if_pos, List.map_cons, List.filter_cons]
      simpa using ihls
    · obtain ⟨item, hitem⟩ :=
        Option.isSome_iff_exists.mp (h l (List.mem_cons_self l ls) hline)
      simp only [PdfEval.read_lines, hline, if_neg, ite_false, hitem, ihls,
        List.map_cons, List.filter_cons]
      have : (!(py_strip l == "")) = true := by
        simpa using hline
      simp [this, hitem]

/-- If some non-blank line fails to parse, the reading loop raises. -/
theorem read_lines_error (parse : String → Option PdfEval.EvalItem) (lines : List String)
    (h : ∃ l ∈ lines, py_strip l ≠ "" ∧ parse (py_strip l) = none) :
    PdfEval.read_lines parse lines = .error () := by
  induction lines with
  | nil => simp at h
  | cons l ls ih =>
    by_cases hline : py_strip l = ""
    · have hls : ∃ x ∈ ls, py_strip x ≠ "" ∧ parse (py_strip x) = none := by
        rcases h with ⟨x, hx, hne, hnone⟩
        rcases List.mem_cons.mp hx with hx | hx
        · subst hx; exact absurd hline hne
        · exact ⟨x, hx, hne, hnone⟩
      simp only [PdfEval.read_lines, hline, if_pos]
      exact ih hls
    · cases hp : parse (py_strip l) with
      | none => simp [PdfEval.read_lines, hline, hp]
      | some item =>
        have hls : ∃ x ∈ ls, py_strip x ≠ "" ∧ parse (py_strip x) = none := by
          rcases h with ⟨x, hx, hne, hnone⟩
          rcases List.mem_cons.mp hx with hx | hx
          · subst hx; rw [hp] at hnone; exact absurd hnone (by simp)
          · exact ⟨x, hx, hne, hnone⟩
        simp [PdfEval.read_lines, hline, hp, ih hls]

/-- If every element of a list is mapped to `some`, `filterMap` keeps the
list's length. -/
theorem length_filterMap_of_isSome {α β : Type} (f : α → Option β) (l : List α)
    (h : ∀ x ∈ l, (f x).isSome) : (l.filterMap f).length = l.length := by
  induction l with
  | nil => rfl
  | cons a as ih =>
    obtain ⟨b, hb⟩ := Option.isSome_iff_exists.mp (h a (List.mem_cons_self a as))
    simp [List.filterMap_cons, hb, ih (fun x hx => h x (List.mem_cons_of_mem a hx))]

/-- Counterexample to claim C4 as stated.  The claim says a malformed line
is skipped while the rest is read, so the loaded count equals the number of
well-formed lines.  On the code, the `json.JSONDecodeError` handler sits
outside the reading loop: with lines `["good", "bad"]` — one well-formed,
one malformed — `load_eval_set` returns the empty list, not one item. -/
theorem load_eval_set_counterexample :
    PdfEval.load_eval_set sample_parse ["good", "bad"] = []
    ∧ (["good", "bad"].filter (fun l => (sample_parse (py_strip l)).isSome)).length = 1
    ∧ (PdfEval.load_eval_set sample_parse ["good", "bad"]).length ≠ 1 := by
  decide

/-- Claim C4, amended: a malformed (unparseable) line is not skipped — it
aborts the whole load, which returns the empty list, discarding the
well-formed lines too.  Only when every non-blank line parses is the file
read in full, yielding exactly one item per non-blank line, in input
order. -/
theorem load_eval_set_amended (parse : String → Option PdfEval.EvalItem)
    (lines : List String) :
    ((∀ l ∈ lines, py_strip l ≠ "" → (parse (py_strip l)).isSome) →
      PdfEval.load_eval_set parse lines
        = ((lines.map py_strip).filter (fun l => !(l == ""))).filterMap parse
      ∧ (PdfEval.load_eval_set parse lines).length
          = ((lines.map py_strip).filter (fun l => !(l == ""))).length)
    ∧ ((∃ l ∈ lines, py_strip l ≠ "" ∧ parse (py_strip l) = none) →
      PdfEval.load_eval_set parse lines = []) := by
  constructor
  · intro h
    have hok := read_lines_ok parse lines h
    have heq : PdfEval.load_eval_set parse lines
        = ((lines.map py_strip).filter (fun l => !(l == ""))).filterMap parse := by
      unfold PdfEval.load_eval_set
      rw [hok]
    refine ⟨heq, ?_⟩
    rw [heq]
    apply length_filterMap_of_isSome
    intro x hx
    obtain ⟨hx1, hx2⟩ := List.mem_filter.mp hx
    obtain ⟨y, hy, hyx⟩ := List.mem_map.mp hx1
    subst hyx
    exact h y hy (by simpa using hx2)
  · intro h
    unfold PdfEval.load_eval_set
    rw [read_lines_error parse lines h]

/-- Witness for the amended C4: a file of two well-formed lines and a blank
line loads both items; a file with one well-formed and one malformed line
loads nothing. -/
theorem load_eval_set_amended_witness :
    PdfEval.load_eval_set sample_parse ["good", " ", "good"]
      = [{ question := "q", answer := "a" }, { question := "q", answer := "a" }]
    ∧ (PdfEval.load_eval_set sample_parse ["good", " ", "good"]).length = 2
    ∧ PdfEval.load_eval_set sample_parse ["good", "bad"] = [] := by
  have h1 := (load_eval_set_amended sample_parse ["good", " ", "good"]).1 (by decide)
  have h2 := (load_eval_set_amended sample_parse ["good", "bad"]).2 (by decide)
  exact ⟨h1.1.trans (by decide), h1.2.trans (by decide), h2⟩

/-- Generalised fold lemma: the per-item loop appends exactly one entry per
item to whatever tracker state it starts from, in input order. -/
theorem run_evaluation_foldl (predict : PdfEval.EvalItem → PdfEval.PredictorResult)
    (judge : String → String → String → Except Unit String)
    (items : List PdfEval.EvalItem) (acc : PdfEval.EvaluationResults) :
    (items.foldl
      (fun acc item =>
        let predicted := PdfEval.predicted_of (predict item)
        PdfEval.add_result acc item.question item.answer predicted
          (PdfEval.eval_grade judge item.question item.answer predicted))
      acc).results
      = acc.results ++ items.map (PdfEval.eval_entry predict judge) := by
  induction items generalizing acc with
  | nil => simp
  | cons item rest ih =>
    simp only [List.foldl_cons, List.map_cons]
    rw [ih]
    simp [PdfEval.add_result, PdfEval.eval_entry]

/-- Claim C5: the harness loop processes items strictly in input order and
records exactly one result per item — the result list is the input list
mapped through the single-item pipeline, so it has the input's length and
order — and a predictor failure is captured as the literal string
`"Error: ..."`, which is used as the predicted answer and still graded
rather than propagated. -/
theorem run_evaluation_per_item (predict : PdfEval.EvalItem → PdfEval.PredictorResult)
    (judge : String → String → String → Except Unit String)
    (items : List PdfEval.EvalItem) :
    (PdfEval.run_evaluation predict judge items).results
      = items.map (PdfEval.eval_entry predict judge)
    ∧ (PdfEval.run_evaluation predict judge items).results.length = items.length
    ∧ (∀ item e, predict item = .error e →
        (PdfEval.eval_entry predict judge item).predicted_answer = "Error: " ++ e
        ∧ (PdfEval.eval_entry predict judge item).grade
            = PdfEval.eval_grade judge item.question item.answer ("Error: " ++ e)) := by
  have hfold := run_evaluation_foldl predict judge items PdfEval.empty_results
  have heq : (PdfEval.run_evaluation predict judge items).results
      = items.map (PdfEval.eval_entry predict judge) := by
    unfold PdfEval.run_evaluation
    rw [hfold]
    simp [PdfEval.empty_results]
  refine ⟨heq, by rw [heq]; simp, ?_⟩
  intro item e he
  constructor
  · simp [PdfEval.eval_entry, he, PdfEval.predicted_of]
  · simp [PdfEval.eval_entry, he, PdfEval.predicted_of]

/-- Witness for C5: running one item against a predictor that times out and
a judge that answers `"incorrect"` yields exactly one recorded result whose
predicted answer is the literal error string. -/
theorem run_evaluation_per_item_witness :
    (PdfEval.run_evaluation (fun _ => .error "Request timed out")
        (fun _ _ _ => .ok "incorrect") [{ question := "q", answer := "a" }]).results.length = 1
    ∧ (PdfEval.eval_entry (fun _ => .error "Request timed out")
        (fun _ _ _ => .ok "incorrect")
        { question := "q", answer := "a" }).predicted_answer = "Error: Request timed out"
    ∧ (PdfEval.eval_entry (fun _ => .error "Request timed out")
        (fun _ _ _ => .ok "incorrect")
        { question := "q", answer := "a" }).grade = "incorrect" := by
  have h := run_evaluation_per_item (fun _ => .error "Request timed out")
    (fun _ _ _ => .ok "incorrect") [{ question := "q", answer := "a" }]
  have herr := h.2.2 { question := "q", answer := "a" } "Request timed out" rfl
  exact ⟨h.2.1, herr.1, herr.2.trans rfl⟩
